import Mathlib

/-!
Verification of the QuickQuiz RAG retrieval-and-chat core
(`services/rag_chatbot_service`): a shallow embedding of the text chunker,
the SQLite document retriever, the conversation manager, the chat engine and
the API entry points, together with theorems settling the specification's
testable properties.

Text is modelled as `List Char`; SQL tables as Lean lists in row order;
Python floats (similarity scores, timestamps) as exact rationals.
-/

namespace RagChatbot

/-! ### Character and string helpers

Python's `\s` / `str.strip()` / `str.split()` whitespace (ASCII part). -/

def isSpaceChar (c : Char) : Bool :=
  c == ' ' || c == '\t' || c == '\n' || c == '\r' || c == '\x0b' || c == '\x0c'

/-- The regex class `[.!?]` used by `_split_text_into_chunks`. -/
def isSentEndChar (c : Char) : Bool :=
  c == '.' || c == '!' || c == '?'

/-- Python `str.lower()` restricted to the character-wise case map. -/
def lowerL (l : List Char) : List Char := l.map Char.toLower

/-- Python `str.strip()`: remove leading and trailing whitespace. -/
def stripChars (l : List Char) : List Char :=
  ((l.dropWhile isSpaceChar).reverse.dropWhile isSpaceChar).reverse

/-- `stripChars` lifted back to `String` (Python `s.strip()`). -/
def stripS (s : String) : String := ⟨stripChars s.toList⟩

/-- Worker for Python `str.split()` with no separator: split on whitespace
runs, discarding empty fields. `cur` holds the current word reversed. -/
def wordsAux (cur : List Char) : List Char → List (List Char)
  | [] => if cur.isEmpty then [] else [cur.reverse]
  | c :: rest =>
    if isSpaceChar c then
      if cur.isEmpty then wordsAux [] rest else cur.reverse :: wordsAux [] rest
    else
      wordsAux (c :: cur) rest

/-- Python `str.split()` (no argument form). -/
def wordsOf (l : List Char) : List (List Char) := wordsAux [] l

/-- `leadsWith needle l` : `needle` is an initial segment of `l`. -/
def leadsWith : List Char → List Char → Bool
  | [], _ => true
  | _ :: _, [] => false
  | a :: as, b :: bs => a == b && leadsWith as bs

/-- `occursIn needle haystack` : substring occurrence, the semantics of
Python `needle in haystack` and of SQL `LIKE '%needle%'`. -/
def occursIn (needle : List Char) : List Char → Bool
  | [] => leadsWith needle []
  | c :: rest => leadsWith needle (c :: rest) || occursIn needle rest

/-! ### Sentence splitting

`re.split(r'(?<=[.!?])\s+', text)` from
`SQLiteDocumentRetriever._split_text_into_chunks`: a split point is a maximal
whitespace run immediately preceded by `.`, `!` or `?`; the whitespace is
consumed.  `skip` is true while consuming the whitespace run of a match
(during which the accumulator is empty, so a fresh lookbehind cannot fire). -/

def sentBoundary (acc : List Char) (c : Char) : Bool :=
  (match acc with
   | [] => false
   | p :: _ => isSentEndChar p) && isSpaceChar c

def sentAux : Bool → List Char → List Char → List (List Char)
  | _, acc, [] => [acc.reverse]
  | true, acc, c :: rest =>
    if isSpaceChar c then sentAux true acc rest
    else sentAux false [c] rest
  | false, acc, c :: rest =>
    if sentBoundary acc c then acc.reverse :: sentAux true [] rest
    else sentAux false (c :: acc) rest

/-- The sentence list of a text, as produced by the retriever's regex split. -/
def split_sentences (text : List Char) : List (List Char) :=
  sentAux false [] text

/-! ### The text chunker

`SQLiteDocumentRetriever._split_text_into_chunks(text, chunk_size, overlap)` of
`services/rag_chatbot_service/sqlite_retriever.py`, embedded loop-by-loop:
sentences are accumulated into `cur`; when the next sentence would overflow
`chunk_size` the buffer is emitted (stripped) and reseeded with its last
`overlap` characters; at most 200 chunks are emitted. -/

/-- `current_chunk += " " + sentence if current_chunk else sentence`. -/
def appendS (buf s : List Char) : List Char :=
  if buf = [] then s else buf ++ ' ' :: s

/-- `current_chunk[-overlap:] if overlap > 0 else ""`. -/
def seedOf (ov : Nat) (buf : List Char) : List Char :=
  if 0 < ov then buf.drop (buf.length - ov) else []

/-- The code after the `for` loop: emit the final buffer if it strips
non-empty and the ceiling has not been reached. -/
def finalChunkStep (chunks : List (List Char)) (cur : List Char) : List (List Char) :=
  if stripChars cur ≠ [] ∧ chunks.length < 200 then chunks ++ [stripChars cur] else chunks

/-- The `for sentence in sentences` loop (with its `max_chunks` break),
followed by `finalChunkStep`. -/
def chunkLoop (cs ov : Nat) : List (List Char) → List (List Char) → List Char → List (List Char)
  | [], chunks, cur => finalChunkStep chunks cur
  | s :: ss, chunks, cur =>
    if 200 ≤ chunks.length then finalChunkStep chunks cur
    else if cur ≠ [] ∧ cs < cur.length + s.length then
      chunkLoop cs ov ss (chunks ++ [stripChars cur]) (appendS (seedOf ov cur) s)
    else
      chunkLoop cs ov ss chunks (appendS cur s)

/-- `_split_text_into_chunks`: texts shorter than 10 characters yield no
chunks; otherwise run the sentence loop from an empty buffer. -/
def split_text_into_chunks (text : List Char) (cs ov : Nat) : List (List Char) :=
  if text.length < 10 then [] else chunkLoop cs ov (split_sentences text) [] []

/-! ### Data model

`DocumentChunkModel` rows of `database.py` (the columns the retriever reads),
`RetrievedDocument` / `RetrievalConfig` as consumed by the retriever, and the
quiz-template rows feeding `QuizDataAccess.search_quiz_content`. -/

structure DocumentChunkModel where
  chunk_id : String
  document_id : String
  content : String
  chunk_index : Nat
  topic : String
  category : String
  tags : List String
deriving DecidableEq

structure RetrievalConfig where
  top_k : Nat
  similarity_threshold : ℚ
  topic_filter : Option String
deriving DecidableEq

structure RetrievedDocument where
  document_id : String
  chunk_id : String
  content : String
  topic : String
  category : String
  similarity_score : ℚ
  tags : List String
deriving DecidableEq

structure QuizTemplate where
  subject : String
  topic : String
  question_texts : List String
deriving DecidableEq

/-- The dictionaries returned by `QuizDataAccess.search_quiz_content`. -/
structure QuizItem where
  qtype : String
  subject : String
  topic : String
  content : String
deriving DecidableEq

/-! ### Retriever (`sqlite_retriever.py`, services variant) -/

/-- The serialized template text built inside
`QuizDataAccess.search_quiz_content`:
`f"Subject: {subject}, Topic: {topic}\n"` + newline-joined question texts. -/
def quizTemplateContent (t : QuizTemplate) : String :=
  "Subject: " ++ t.subject ++ ", Topic: " ++ t.topic ++ "\n"
    ++ String.intercalate "\n" t.question_texts

/-- `QuizDataAccess.search_quiz_content(query, limit)` over the template
table (row order = `get_quiz_templates` order): fetch `limit*2` templates,
keep those whose serialized content contains the full lowercased query,
truncate content to 500 characters, return the first `limit`.  JSON-decode
failure paths (`except: continue`) are elided. -/
def search_quiz_content (templates : List QuizTemplate) (query : String) (lim : Nat) :
    List QuizItem :=
  ((((templates.take (lim * 2)).filter
      (fun t => occursIn (lowerL query.toList) (lowerL (quizTemplateContent t).toList))).map
      (fun t => { qtype := "quiz_template", subject := t.subject, topic := t.topic,
                  content := (quizTemplateContent t).take 500 })).take lim)

/-- `RetrievedDocument` built from a stored chunk in
`_search_stored_chunks`, with its flat base score `0.5`. -/
def toRetrieved (c : DocumentChunkModel) : RetrievedDocument :=
  { document_id := c.document_id, chunk_id := c.chunk_id, content := c.content,
    topic := c.topic, category := c.category, similarity_score := 1/2, tags := c.tags }

/-- `content ILIKE '%word%'` for an already-lowercased `word`. -/
def contentHasWord (c : DocumentChunkModel) (w : List Char) : Bool :=
  occursIn w (lowerL c.content.toList)

/-- `SQLiteDocumentRetriever._search_stored_chunks(query, limit)`: lowercase
and split the query; single-word queries filter chunks whose `content`
contains the word, multi-word queries filter on `or_` of the words; the SQL
`LIMIT` keeps the first `lim` matching rows.  Only `content` is filtered —
`topic` is not consulted.  The `except` branch returning `[]` on a database
error is elided (happy path). -/
def search_stored_chunks (store : List DocumentChunkModel) (query : String) (lim : Nat) :
    List RetrievedDocument :=
  let qwords := wordsOf (lowerL query.toList)
  let chunks :=
    match qwords with
    | [w] => (store.filter (fun c => contentHasWord c w)).take lim
    | _ => (store.filter (fun c => qwords.any (fun w => contentHasWord c w))).take lim
  chunks.map toRetrieved

/-- `SQLiteDocumentRetriever._search_quiz_content(query, limit)`: wrap each
item from `search_quiz_content` with base score `0.4`, `chunk_id` from the
running result count, then `results[:limit]`. -/
def search_quiz_docs (items : List QuizItem) (lim : Nat) : List RetrievedDocument :=
  ((items.enum.map (fun p =>
    { document_id := "quiz_" ++ p.2.qtype, chunk_id := "quiz_" ++ toString p.1,
      content := p.2.content, topic := p.2.subject, category := p.2.qtype,
      similarity_score := 2/5, tags := ([] : List String) })).take lim)

/-- Keyword-overlap count of `_rank_documents`:
`sum(1 for word in query_words if word in content_words)` — every occurrence
in the query word list counts, membership is bag-of-words. -/
def matchCount (query content : String) : Nat :=
  ((wordsOf (lowerL query.toList)).filter
    (fun w => (wordsOf (lowerL content.toList)).contains w)).length

/-- The score `_rank_documents` assigns to a candidate:
`min(0.9, similarity_score + matches * 0.1)`. -/
def ranked_score (query : String) (d : RetrievedDocument) : ℚ :=
  min (9/10) (d.similarity_score + (matchCount query d.content : ℚ) * (1/10))

/-- Stable insertion into a descending-by-score list (an earlier element
stays before later elements of equal score, matching Python's stable
`sorted(..., reverse=True)`). -/
def insertDesc (d : RetrievedDocument) : List RetrievedDocument → List RetrievedDocument
  | [] => [d]
  | x :: xs => if x.similarity_score ≤ d.similarity_score then d :: x :: xs
               else x :: insertDesc d xs

def sortDesc : List RetrievedDocument → List RetrievedDocument
  | [] => []
  | d :: ds => insertDesc d (sortDesc ds)

/-- `SQLiteDocumentRetriever._rank_documents`: rescore every candidate with
`ranked_score`, then sort descending by score. -/
def rank_documents (docs : List RetrievedDocument) (query : String) : List RetrievedDocument :=
  sortDesc (docs.map (fun d => { d with similarity_score := ranked_score query d }))

/-- `SQLiteDocumentRetriever.search_documents(query, config)` (also aliased
as `retrieve_documents`): primary chunk search and secondary quiz search,
each capped at `top_k // 2`, merged, ranked, truncated to `top_k`.  Note
that of the whole `config` only `top_k` is ever read. -/
def search_documents (store : List DocumentChunkModel) (templates : List QuizTemplate)
    (query : String) (config : RetrievalConfig) : List RetrievedDocument :=
  let stored := search_stored_chunks store query (config.top_k / 2)
  let quiz := search_quiz_docs (search_quiz_content templates query (config.top_k / 2))
    (config.top_k / 2)
  let ranked := rank_documents (stored ++ quiz) query
  ranked.take config.top_k

/-! ### Conversation manager and chat engine (`chat_engine.py`) -/

structure ChatMessage where
  role : String
  content : String
  timestamp : Nat
deriving DecidableEq

structure ConversationHistory where
  conversation_id : String
  created_at : Nat
  updated_at : Nat
  messages : List ChatMessage
deriving DecidableEq

/-- The engine's `self.conversations` dict: an insertion-ordered association
list keyed by conversation id. -/
def lookupConv : List (String × ConversationHistory) → String → Option ConversationHistory
  | [], _ => none
  | (k, v) :: rest, id => if k = id then some v else lookupConv rest id

def setConv : List (String × ConversationHistory) → String → ConversationHistory →
    List (String × ConversationHistory)
  | [], id, v => [(id, v)]
  | (k, w) :: rest, id, v => if k = id then (id, v) :: rest else (k, w) :: setConv rest id v

/-- `RAGChatEngine._get_conversation_history`: `None` when no id is supplied
(Python falsiness also rejects the empty string) or the conversation is
unknown; otherwise the last 6 messages (`messages[-6:]`), formatted as
role/content pairs. -/
def get_conversation_history (convs : List (String × ConversationHistory))
    (cid : Option String) : Option (List (String × String)) :=
  match cid with
  | none => none
  | some id =>
    if id = "" then none
    else
      match lookupConv convs id with
      | none => none
      | some h =>
        some ((h.messages.drop (h.messages.length - 6)).map (fun m => (m.role, m.content)))

/-- `RAGChatEngine._update_conversation`: create the thread on first use,
append the user and assistant messages, refresh `updated_at`. -/
def update_conversation (convs : List (String × ConversationHistory)) (cid : String)
    (query response : String) (now : Nat) : List (String × ConversationHistory) :=
  let base :=
    match lookupConv convs cid with
    | some h => h
    | none => { conversation_id := cid, created_at := now, updated_at := now, messages := [] }
  setConv convs cid
    { base with
      messages := base.messages ++
        [{ role := "user", content := query, timestamp := now },
         { role := "assistant", content := response, timestamp := now }],
      updated_at := now }

/-! ### LLM adapter (`llm_adapter.py`, `GeminiChatAdapter._generate_with_retry`) -/

/-- The fixed fallback answer returned when every Gemini model fails. -/
def gemini_apology : String :=
  "Xin lỗi, tôi không thể trả lời câu hỏi này lúc này. Vui lòng thử lại sau."

/-- One entry per model of `self.model_fallback`: the provider call either
raises (`Except.error`) or returns text.  The loop returns the first
non-empty text stripped; if every attempt raises or yields empty text, the
fixed apology is returned — the adapter itself never propagates the error. -/
def generate_with_retry : List (Except String String) → String
  | [] => gemini_apology
  | Except.error _ :: rest => generate_with_retry rest
  | Except.ok t :: rest => if t = "" then generate_with_retry rest else stripS t

/-- A provider attempt that raised, or returned empty text — the two
failure modes the retry loop skips over. -/
def failedOrEmpty : Except String String → Bool
  | Except.error _ => true
  | Except.ok t => t == ""

structure RAGChatResponse where
  answer : String
  conversation_id : Option String
  processing_time : ℚ
deriving DecidableEq

/-- `RAGChatEngine.chat`: on a successful LLM outcome, store the exchange
when (and only when) a truthy `conversation_id` was supplied, and answer
with the LLM text; if anything inside the `try` raises, the `except` branch
returns the apology-prefixed error answer and leaves the conversation store
untouched.  `processing_time` is the wall-clock difference of the start and
end timestamps. -/
def engine_chat (convs : List (String × ConversationHistory)) (query : String)
    (cid : Option String) (llmOutcome : Except String String) (startT endT : ℚ)
    (now : Nat) : RAGChatResponse × List (String × ConversationHistory) :=
  match llmOutcome with
  | Except.error e =>
    ({ answer := "Xin lỗi, đã có lỗi xảy ra khi xử lý câu hỏi của bạn: " ++ e,
       conversation_id := cid, processing_time := endT - startT }, convs)
  | Except.ok ans =>
    let convs' :=
      match cid with
      | some c => if c = "" then convs else update_conversation convs c query ans now
      | none => convs
    ({ answer := ans, conversation_id := cid, processing_time := endT - startT }, convs')

/-! ### API layer (`api.py`) -/

/-- Python truthiness of an optional conversation id. -/
def cid_truthy : Option String → Bool
  | none => false
  | some s => !(s == "")

/-- Key under which `_process_chat_request` logs the turn:
`effective_conversation_id or "standalone"`. -/
def log_key : Option String → String
  | some c => if c = "" then "standalone" else c
  | none => "standalone"

/-- Id resolution of `chat_with_rag` (`POST /chat`): when the request holds
no truthy `conversation_id`, a fresh uuid is generated and used. -/
def effective_cid (reqCid : Option String) (freshUuid : String) : Option String :=
  if cid_truthy reqCid then reqCid else some freshUuid

/-- `POST /chat`: resolve the conversation id (generating `freshUuid` when
absent), run the engine, log under `log_key`. -/
def chat_with_rag (convs : List (String × ConversationHistory)) (reqCid : Option String)
    (freshUuid query : String) (llmOutcome : Except String String) (startT endT : ℚ)
    (now : Nat) :
    (RAGChatResponse × List (String × ConversationHistory)) × String :=
  let cid := effective_cid reqCid freshUuid
  (engine_chat convs query cid llmOutcome startT endT now, log_key cid)

/-- `POST /chat/quick`: always passes `conversation_id=None` to the engine
and logs under `log_key none`. -/
def quick_chat (convs : List (String × ConversationHistory)) (query : String)
    (llmOutcome : Except String String) (startT endT : ℚ) (now : Nat) :
    (RAGChatResponse × List (String × ConversationHistory)) × String :=
  (engine_chat convs query none llmOutcome startT endT now, log_key none)

/-! ### Indexer content choice (`rebuild_index`, services variant) -/

/-- Python `a or b` for an optional string `a` (empty and missing are falsy). -/
def or_else_str (a : Option String) (b : String) : String :=
  match a with
  | some s => if s = "" then b else s
  | none => b

/-- Line 247 of `sqlite_retriever.py`:
`(doc.get("extracted_text") or doc.get("summary") or "").strip()` — the
content the rebuild chunks for a document. -/
def chosen_text (extracted summary : Option String) : String :=
  stripS (or_else_str extracted (or_else_str summary ""))

/-! ### Reference decomposition of the chunker output

Modelled from the spec: the chunk-coverage property describes each emitted
chunk as "overlap seed + its own group of sentences".  `bufOf` rebuilds the
buffer a group of sentences produces on top of a seed, `chunkChain` the
chunk sequence a group list produces (each chunk stripped, the next seed cut
from the previous buffer), `lastBuf` the buffer state left after the last
group.  These definitions follow the spec's wording and are compared against
`split_text_into_chunks`. -/

def bufOf (seed : List Char) (g : List (List Char)) : List Char :=
  g.foldl appendS seed

def chunkChain (ov : Nat) : List Char → List (List (List Char)) → List (List Char)
  | _, [] => []
  | cur, g :: gs => stripChars (bufOf cur g) :: chunkChain ov (seedOf ov (bufOf cur g)) gs

def lastBuf (ov : Nat) : List Char → List (List (List Char)) → List Char
  | cur, [] => cur
  | cur, g :: gs => lastBuf ov (seedOf ov (bufOf cur g)) gs

end RagChatbot

namespace RagChatbot

/-! ## Helper lemmas -/

theorem stripChars_eq_nil_iff (l : List Char) :
    stripChars l = [] ↔ ∀ c ∈ l, isSpaceChar c := by
  unfold stripChars
  rw [List.reverse_eq_nil_iff, List.dropWhile_eq_nil_iff]
  constructor
  · intro h c hc
    rcases (List.mem_append.mp
      (by rw [List.takeWhile_append_dropWhile (p := isSpaceChar)]; exact hc :
        c ∈ l.takeWhile isSpaceChar ++ l.dropWhile isSpaceChar)) with h1 | h1
    · exact List.mem_takeWhile_imp h1
    · exact h c (List.mem_reverse.mpr h1)
  · intro h c hc
    exact h c ((List.dropWhile_sublist isSpaceChar).mem (List.mem_reverse.mp hc))

theorem mem_appendS_left {c : Char} {buf s : List Char} (h : c ∈ buf) :
    c ∈ appendS buf s := by
  unfold appendS
  split
  · simp_all
  · exact List.mem_append_left _ h

theorem mem_appendS_right {c : Char} {buf s : List Char} (h : c ∈ s) :
    c ∈ appendS buf s := by
  unfold appendS
  split
  · exact h
  · exact List.mem_append_right _ (List.mem_cons_of_mem _ h)

theorem mem_bufOf_of_mem_seed {c : Char} :
    ∀ (g : List (List Char)) (seed : List Char), c ∈ seed → c ∈ bufOf seed g
  | [], _, h => h
  | s :: g, seed, h => mem_bufOf_of_mem_seed g (appendS seed s) (mem_appendS_left h)

theorem mem_bufOf_of_mem {c : Char} :
    ∀ (g : List (List Char)) (seed s : List Char), s ∈ g → c ∈ s → c ∈ bufOf seed g
  | a :: g, seed, s, hs, hc => by
    rcases List.mem_cons.mp hs with rfl | hs
    · exact mem_bufOf_of_mem_seed g _ (mem_appendS_right hc)
    · exact mem_bufOf_of_mem g (appendS seed a) s hs hc

theorem finalChunkStep_length (chunks : List (List Char)) (cur : List Char) :
    chunks.length ≤ (finalChunkStep chunks cur).length := by
  unfold finalChunkStep
  split
  · simp
  · exact le_rfl

theorem finalChunkStep_self {chunks : List (List Char)} {cur : List Char}
    (h : finalChunkStep chunks cur = chunks) (hlen : chunks.length < 200) :
    stripChars cur = [] := by
  unfold finalChunkStep at h
  split at h
  · exact absurd (congrArg List.length h) (by simp)
  · rename_i hc
    push_neg at hc
    by_contra hne
    exact absurd hlen (Nat.not_lt.mpr (hc hne))

theorem bufOf_cons (x s : List Char) (g : List (List Char)) :
    bufOf x (s :: g) = bufOf (appendS x s) g := rfl

/-- Invariant of the chunking loop: when the 200-chunk ceiling is never hit,
the pending sentences split into groups, one group per further emitted chunk
(each chunk the stripped buffer its group builds on top of the running
overlap seed), possibly followed by a tail of sentences left in a final
buffer that strips to nothing. -/
theorem chunkLoop_coverage (cs ov : Nat) (ss : List (List Char)) :
    ∀ (chunks : List (List Char)) (cur : List Char),
      (chunkLoop cs ov ss chunks cur).length < 200 →
      ∃ gs rest,
        ss = gs.flatten ++ rest ∧
        chunkLoop cs ov ss chunks cur = chunks ++ chunkChain ov cur gs ∧
        (rest = [] ∨ stripChars (bufOf (lastBuf ov cur gs) rest) = []) := by
  induction ss with
  | nil =>
    intro chunks cur H
    rw [chunkLoop] at H ⊢
    by_cases hc : stripChars cur ≠ [] ∧ chunks.length < 200
    · refine ⟨[[]], [], by simp, ?_, Or.inl rfl⟩
      unfold finalChunkStep
      rw [if_pos hc]
      simp [chunkChain, bufOf]
    · refine ⟨[], [], rfl, ?_, Or.inl rfl⟩
      unfold finalChunkStep
      rw [if_neg hc]
      simp [chunkChain]
  | cons s ss ih =>
    intro chunks cur H
    rw [chunkLoop] at H ⊢
    by_cases h200 : 200 ≤ chunks.length
    · rw [if_pos h200] at H
      exact absurd H (by have := finalChunkStep_length chunks cur; omega)
    · rw [if_neg h200] at H ⊢
      by_cases hemit : cur ≠ [] ∧ cs < cur.length + s.length
      · rw [if_pos hemit] at H ⊢
        obtain ⟨gs', rest', h1, h2, h3⟩ := ih (chunks ++ [stripChars cur]) _ H
        rcases gs' with _ | ⟨g1, gr⟩
        · -- no further chunk was produced: everything after the emitted
          -- chunk is leftover in the final buffer
          simp only [List.flatten_nil, List.nil_append] at h1
          refine ⟨[[]], s :: ss, by simp, ?_, Or.inr ?_⟩
          · rw [h2]
            simp [chunkChain, bufOf]
          · have hlast : lastBuf ov cur [[]] = seedOf ov cur := by
              simp [lastBuf, bufOf]
            rw [hlast]
            have hbuf : bufOf (seedOf ov cur) (s :: ss) =
                bufOf (appendS (seedOf ov cur) s) ss := rfl
            rw [hbuf]
            rcases h3 with h3 | h3
            · -- the recursive call degenerated to the final step
              subst h3
              rw [h1] at h2 H ⊢
              rw [chunkLoop] at h2 H
              have hlen : (chunks ++ [stripChars cur]).length < 200 := by
                have := finalChunkStep_length (chunks ++ [stripChars cur])
                  (appendS (seedOf ov cur) s)
                omega
              have hs := finalChunkStep_self (by simpa [chunkChain] using h2) hlen
              simpa [bufOf] using hs
            · rw [h1]
              simpa [lastBuf] using h3
        · refine ⟨[] :: (s :: g1) :: gr, rest', ?_, ?_, ?_⟩
          · simp [h1]
          · rw [h2]
            simp [chunkChain, bufOf_cons, bufOf]
          · simpa [lastBuf, bufOf_cons, bufOf] using h3
      · rw [if_neg hemit] at H ⊢
        obtain ⟨gs', rest', h1, h2, h3⟩ := ih chunks _ H
        rcases gs' with _ | ⟨g1, gr⟩
        · simp only [List.flatten_nil, List.nil_append] at h1
          refine ⟨[], s :: ss, by simp, ?_, Or.inr ?_⟩
          · rw [h2]
            simp [chunkChain]
          · have hbuf : bufOf (lastBuf ov cur []) (s :: ss) =
                bufOf (appendS cur s) ss := rfl
            rw [hbuf]
            rcases h3 with h3 | h3
            · subst h3
              rw [h1] at h2 ⊢
              rw [chunkLoop] at h2
              have hlen : chunks.length < 200 := by omega
              have hs := finalChunkStep_self (by simpa [chunkChain] using h2) hlen
              simpa [bufOf] using hs
            · rw [h1]
              simpa [lastBuf] using h3
        · refine ⟨(s :: g1) :: gr, rest', ?_, ?_, ?_⟩
          · simp [h1]
          · rw [h2]
            simp [chunkChain, bufOf_cons]
          · simpa [lastBuf, bufOf_cons] using h3

/-! ## Claim C1 — chunk coverage -/

/-- C1 counterexample: the claim fails as stated — for the 9-character text
"Hi there." (any text shorter than 10 characters) the chunker emits zero
chunks, dropping its one non-whitespace sentence entirely, so no
concatenation of chunks can reproduce the sentence sequence. -/
theorem split_text_drops_short_text :
    split_text_into_chunks ("Hi there.".toList) 500 50 = [] ∧
    split_sentences ("Hi there.".toList) = ["Hi there.".toList] ∧
    stripChars ("Hi there.".toList) ≠ [] := by decide

/-- C1 (amended): for any text of length at least 10 and any `chunk_size`
and `overlap`, as long as fewer than 200 chunks are produced (the
`max_chunks` ceiling is not exhausted), the sentence sequence of the text
splits into consecutive groups, one per chunk, such that each chunk is
exactly the whitespace-stripped concatenation of its overlap seed and its
group's sentences joined by single spaces — no sentence is dropped except
possibly a trailing run of whitespace-only sentences. -/
theorem split_text_coverage (text : List Char) (cs ov : Nat)
    (hlen : 10 ≤ text.length)
    (hceil : (split_text_into_chunks text cs ov).length < 200) :
    ∃ gs rest,
      split_sentences text = gs.flatten ++ rest ∧
      (∀ s ∈ rest, stripChars s = []) ∧
      split_text_into_chunks text cs ov = chunkChain ov [] gs := by
  have hnot : ¬ text.length < 10 := by omega
  rw [split_text_into_chunks, if_neg hnot] at hceil ⊢
  obtain ⟨gs, rest, h1, h2, h3⟩ := chunkLoop_coverage cs ov (split_sentences text) [] [] hceil
  refine ⟨gs, rest, h1, ?_, by simpa using h2⟩
  rcases h3 with h3 | h3
  · subst h3; simp
  · intro s hs
    rw [stripChars_eq_nil_iff]
    intro c hc
    exact (stripChars_eq_nil_iff _).mp h3 c (mem_bufOf_of_mem rest _ s hs hc)

/-- C1 witness: the coverage theorem applied to a concrete two-sentence
text chunked with `chunk_size = 30`, `overlap = 5`. -/
theorem split_text_coverage_witness :
    10 ≤ ("First sentence here. Second here too.".toList).length ∧
    (split_text_into_chunks ("First sentence here. Second here too.".toList) 30 5).length < 200 ∧
    (∃ gs rest,
      split_sentences ("First sentence here. Second here too.".toList) = gs.flatten ++ rest ∧
      (∀ s ∈ rest, stripChars s = []) ∧
      split_text_into_chunks ("First sentence here. Second here too.".toList) 30 5 =
        chunkChain 5 [] gs) :=
  ⟨by decide, by decide, split_text_coverage _ _ _ (by decide) (by decide)⟩

/-! ## Claim C2 — top-k bound -/

/-- C2: `search_documents` never returns more than `top_k` results, for
every store, template table, query and retrieval config. -/
theorem search_documents_top_k_bound (store : List DocumentChunkModel)
    (templates : List QuizTemplate) (query : String) (config : RetrievalConfig) :
    (search_documents store templates query config).length ≤ config.top_k := by
  unfold search_documents
  exact List.length_take_le _ _

/-- The two SQL branches of `_search_stored_chunks` (single-word versus
`or_` of several words) have the same semantics. -/
theorem search_stored_chunks_eq (store : List DocumentChunkModel) (query : String)
    (lim : Nat) :
    search_stored_chunks store query lim =
      ((store.filter
        (fun c => (wordsOf (lowerL query.toList)).any (fun w => contentHasWord c w))).take
        lim).map toRetrieved := by
  unfold search_stored_chunks
  cases hq : wordsOf (lowerL query.toList) with
  | nil => simp
  | cons w ws =>
    cases ws with
    | nil => simp
    | cons w2 ws2 => rfl

theorem search_stored_chunks_zero (store : List DocumentChunkModel) (query : String) :
    search_stored_chunks store query 0 = [] := by
  rw [search_stored_chunks_eq]
  simp

/-! ## Claim C9 — `top_k = 1` returns nothing -/

/-- C9: with `top_k = 1` (the lower bound the public API permits) the
integer division `top_k // 2 = 0` caps both the chunk search and the quiz
search at zero candidates, so `search_documents` always returns the empty
list no matter what the store holds. -/
theorem search_documents_top_k_one_empty (store : List DocumentChunkModel)
    (templates : List QuizTemplate) (query : String) (config : RetrievalConfig)
    (h : config.top_k = 1) :
    search_documents store templates query config = [] := by
  unfold search_documents
  rw [h]
  norm_num
  rw [search_stored_chunks_zero]
  simp [search_quiz_docs, rank_documents, sortDesc]

/-- C9 witness: a store holding a chunk that matches the query still yields
an empty result at `top_k = 1`. -/
theorem search_documents_top_k_one_empty_witness :
    ({ top_k := 1, similarity_threshold := 3/10, topic_filter := none } :
      RetrievalConfig).top_k = 1 ∧
    search_documents
      [{ chunk_id := "c1", document_id := "d1", content := "python basics",
         chunk_index := 0, topic := "Python", category := "document", tags := [] }]
      [] "python" { top_k := 1, similarity_threshold := 3/10, topic_filter := none } = [] :=
  ⟨rfl, search_documents_top_k_one_empty _ _ _ _ rfl⟩

/-! ## Claim C10 — threshold and topic filter are dead config -/

/-- C10: two retrieval configs that agree on `top_k` produce identical
result lists for every query and store — `similarity_threshold` and
`topic_filter` are never read by the retriever. -/
theorem search_documents_ignores_filters (store : List DocumentChunkModel)
    (templates : List QuizTemplate) (query : String) (c1 c2 : RetrievalConfig)
    (h : c1.top_k = c2.top_k) :
    search_documents store templates query c1 = search_documents store templates query c2 := by
  unfold search_documents
  rw [h]

/-- C10 witness: changing the threshold from 0.3 to 0.9 and adding a topic
filter leaves the result of a concrete search unchanged. -/
theorem search_documents_ignores_filters_witness :
    ({ top_k := 4, similarity_threshold := 3/10, topic_filter := none } :
      RetrievalConfig).top_k =
      ({ top_k := 4, similarity_threshold := 9/10, topic_filter := some "Python" } :
        RetrievalConfig).top_k ∧
    search_documents
      [{ chunk_id := "c1", document_id := "d1", content := "python basics",
         chunk_index := 0, topic := "Python", category := "document", tags := [] }]
      [] "python" { top_k := 4, similarity_threshold := 3/10, topic_filter := none } =
    search_documents
      [{ chunk_id := "c1", document_id := "d1", content := "python basics",
         chunk_index := 0, topic := "Python", category := "document", tags := [] }]
      [] "python" { top_k := 4, similarity_threshold := 9/10, topic_filter := some "Python" } :=
  ⟨rfl, search_documents_ignores_filters _ _ _ _ _ rfl⟩

/-! ## Claim C3 — ranking monotonicity -/

/-- C3: for two candidates ranked against the same query, with base scores
drawn from `{0.5, 0.4}` (stored chunk / quiz candidate), a strictly larger
keyword-overlap count yields a ranked score that is at least as large, the
`min 0.9` clamp included: the 0.1-per-match increment always covers the 0.1
base-score gap. -/
theorem ranked_score_monotone (query : String) (a b : RetrievedDocument)
    (ha : a.similarity_score = 1/2 ∨ a.similarity_score = 2/5)
    (hb : b.similarity_score = 1/2 ∨ b.similarity_score = 2/5)
    (hm : matchCount query a.content < matchCount query b.content) :
    ranked_score query a ≤ ranked_score query b := by
  unfold ranked_score
  have hc : ((matchCount query a.content : ℚ)) + 1 ≤ (matchCount query b.content : ℚ) := by
    exact_mod_cast hm
  apply min_le_min le_rfl
  rcases ha with ha | ha <;> rcases hb with hb | hb <;> rw [ha, hb] <;> linarith

/-- C3 witness: a stored-chunk candidate (base 0.5) with no keyword overlap
ranks no higher than a quiz candidate (base 0.4) with one overlap. -/
theorem ranked_score_monotone_witness :
    matchCount "python" "nothing here" < matchCount "python" "about python" ∧
    ranked_score "python"
      { document_id := "d1", chunk_id := "c1", content := "nothing here",
        topic := "t", category := "document", similarity_score := 1/2, tags := [] } ≤
    ranked_score "python"
      { document_id := "quiz_quiz_template", chunk_id := "quiz_0", content := "about python",
        topic := "Math", category := "quiz_template", similarity_score := 2/5, tags := [] } :=
  ⟨by decide, ranked_score_monotone _ _ _ (Or.inl rfl) (Or.inr rfl) (by decide)⟩

/-! ## Claim C4 — content choice during rebuild -/

/-- C4 counterexample: the claim fails as stated — with a non-empty
extracted text of 3 characters and a strictly longer summary, the rebuild
chooses the extracted text, not the longer summary: the code is
`extracted_text or summary or ""`, an emptiness fallback, not a length
comparison. -/
theorem chosen_text_not_longer :
    chosen_text (some "abc") (some "a considerably longer summary") = "abc" ∧
    "abc".length < "a considerably longer summary".length := by decide

/-- C4 (amended): the rebuild chooses the extracted text whenever it is
present and non-empty, regardless of the summary's length; the summary is
used only when the extracted text is missing or empty. -/
theorem chosen_text_takes_extracted (e : String) (s : Option String) (he : ¬ e = "") :
    chosen_text (some e) s = stripS e := by
  simp [chosen_text, or_else_str, he]

/-- C4 witness: the amended choice rule at a concrete document. -/
theorem chosen_text_takes_extracted_witness :
    ¬ "abc" = "" ∧ chosen_text (some "abc") (some "a considerably longer summary") = stripS "abc" :=
  ⟨by decide, chosen_text_takes_extracted "abc" (some "a considerably longer summary") (by decide)⟩

/-! ## Claim C5 — primary search matches content only -/

/-- C5 counterexample: the claim fails as stated — a chunk whose `topic`
contains the query word while its `content` does not is not returned by the
live service's `_search_stored_chunks`, which filters on `content` alone. -/
theorem search_stored_chunks_ignores_topic :
    occursIn (lowerL "python".toList) (lowerL "Python".toList) = true ∧
    search_stored_chunks
      [{ chunk_id := "c1", document_id := "d1", content := "zzz", chunk_index := 0,
         topic := "Python", category := "document", tags := [] }]
      "python" 5 = [] := by decide

/-- C5 (amended): for every query word, the primary search returns (up to
its `top_k/2` cap) every chunk whose content contains that word as a
case-insensitive substring; the chunk's topic is not consulted. -/
theorem search_stored_chunks_content_complete (store : List DocumentChunkModel)
    (query : String) (lim : Nat) (c : DocumentChunkModel)
    (hc : c ∈ store) (hlim : store.length ≤ lim)
    (hw : ∃ w ∈ wordsOf (lowerL query.toList), occursIn w (lowerL c.content.toList) = true) :
    ∃ rd ∈ search_stored_chunks store query lim,
      rd.chunk_id = c.chunk_id ∧ rd.content = c.content := by
  rw [search_stored_chunks_eq]
  have hmem : c ∈ store.filter
      (fun c => (wordsOf (lowerL query.toList)).any (fun w => contentHasWord c w)) := by
    rw [List.mem_filter]
    refine ⟨hc, ?_⟩
    rw [List.any_eq_true]
    obtain ⟨w, hw1, hw2⟩ := hw
    exact ⟨w, hw1, hw2⟩
  rw [List.take_of_length_le (le_trans (List.length_filter_le _ _) hlim)]
  exact ⟨toRetrieved c, List.mem_map_of_mem _ hmem, rfl, rfl⟩

/-- C5 witness: a content match is returned by the primary search. -/
theorem search_stored_chunks_content_complete_witness :
    ({ chunk_id := "c1", document_id := "d1", content := "learn Python now",
       chunk_index := 0, topic := "misc", category := "document", tags := [] } :
      DocumentChunkModel) ∈
      [({ chunk_id := "c1", document_id := "d1", content := "learn Python now",
          chunk_index := 0, topic := "misc", category := "document", tags := [] } :
        DocumentChunkModel)] ∧
    (∃ rd ∈ search_stored_chunks
        [{ chunk_id := "c1", document_id := "d1", content := "learn Python now",
           chunk_index := 0, topic := "misc", category := "document", tags := [] }]
        "python" 5,
      rd.chunk_id = "c1" ∧ rd.content = "learn Python now") :=
  ⟨by decide,
   search_stored_chunks_content_complete
     [{ chunk_id := "c1", document_id := "d1", content := "learn Python now",
        chunk_index := 0, topic := "misc", category := "document", tags := [] }]
     "python" 5
     { chunk_id := "c1", document_id := "d1", content := "learn Python now",
       chunk_index := 0, topic := "misc", category := "document", tags := [] }
     (by decide) (by decide) (by decide)⟩

/-! ## Claim C6 — standalone turns and conversation ids -/

/-- C6 counterexample: the claim fails as stated — when the caller of
`POST /chat` supplies no `conversation_id`, the endpoint generates a fresh
uuid, the engine creates a persistent thread under it (the conversation
store grows from 0 to 1 entries), and the response carries the generated
id. -/
theorem chat_generates_conversation_id :
    (chat_with_rag [] none "u1" "q" (Except.ok "ans") 0 0 0).1.2.length = 1 ∧
    (chat_with_rag [] none "u1" "q" (Except.ok "ans") 0 0 0).1.1.conversation_id =
      some "u1" := by decide

/-- C6 (amended): the `POST /chat` endpoint auto-generates a conversation id
when none is supplied and maintains a thread under it; only the quick-chat
path (`POST /chat/quick`) passes no id, and there the conversation store is
unchanged, the turn is logged under the synthetic key "standalone", and the
response carries no conversation id. -/
theorem quick_chat_standalone (convs : List (String × ConversationHistory))
    (query : String) (llm : Except String String) (startT endT : ℚ) (now : Nat)
    (freshUuid : String) :
    (quick_chat convs query llm startT endT now).1.2 = convs ∧
    (quick_chat convs query llm startT endT now).1.1.conversation_id = none ∧
    (quick_chat convs query llm startT endT now).2 = "standalone" ∧
    effective_cid none freshUuid = some freshUuid := by
  cases llm <;> simp [quick_chat, engine_chat, log_key, effective_cid, cid_truthy]

/-! ## Claim C7 — conversation window bound -/

/-- C7: for a stored conversation with more than 6 messages, the history
handed to the prompt builder is exactly the 6 most recent messages in
arrival order (role/content pairs); the older messages stay in the stored
conversation untouched. -/
theorem conversation_window_bound (convs : List (String × ConversationHistory))
    (id : String) (h : ConversationHistory) (hid : ¬ id = "")
    (hlook : lookupConv convs id = some h) (hlen : 6 < h.messages.length) :
    get_conversation_history convs (some id) =
      some ((h.messages.drop (h.messages.length - 6)).map (fun m => (m.role, m.content))) ∧
    ((h.messages.drop (h.messages.length - 6)).map (fun m => (m.role, m.content))).length = 6 := by
  constructor
  · simp [get_conversation_history, hid, hlook]
  · simp [List.length_drop]
    omega

/-- C7 witness: a conversation holding 7 messages yields exactly its last 6
as prompt context. -/
theorem conversation_window_bound_witness :
    ¬ "conv1" = "" ∧
    lookupConv
      [("conv1",
        { conversation_id := "conv1", created_at := 0, updated_at := 7,
          messages := [⟨"user", "m1", 1⟩, ⟨"assistant", "m2", 2⟩, ⟨"user", "m3", 3⟩,
                       ⟨"assistant", "m4", 4⟩, ⟨"user", "m5", 5⟩, ⟨"assistant", "m6", 6⟩,
                       ⟨"user", "m7", 7⟩] })]
      "conv1" =
      some { conversation_id := "conv1", created_at := 0, updated_at := 7,
             messages := [⟨"user", "m1", 1⟩, ⟨"assistant", "m2", 2⟩, ⟨"user", "m3", 3⟩,
                          ⟨"assistant", "m4", 4⟩, ⟨"user", "m5", 5⟩, ⟨"assistant", "m6", 6⟩,
                          ⟨"user", "m7", 7⟩] } ∧
    (get_conversation_history
      [("conv1",
        { conversation_id := "conv1", created_at := 0, updated_at := 7,
          messages := [⟨"user", "m1", 1⟩, ⟨"assistant", "m2", 2⟩, ⟨"user", "m3", 3⟩,
                       ⟨"assistant", "m4", 4⟩, ⟨"user", "m5", 5⟩, ⟨"assistant", "m6", 6⟩,
                       ⟨"user", "m7", 7⟩] })]
      (some "conv1")).isSome = true :=
  ⟨by decide, by decide, by
    obtain ⟨h1, -⟩ := conversation_window_bound
      [("conv1",
        { conversation_id := "conv1", created_at := 0, updated_at := 7,
          messages := [⟨"user", "m1", 1⟩, ⟨"assistant", "m2", 2⟩, ⟨"user", "m3", 3⟩,
                       ⟨"assistant", "m4", 4⟩, ⟨"user", "m5", 5⟩, ⟨"assistant", "m6", 6⟩,
                       ⟨"user", "m7", 7⟩] })]
      "conv1"
      { conversation_id := "conv1", created_at := 0, updated_at := 7,
        messages := [⟨"user", "m1", 1⟩, ⟨"assistant", "m2", 2⟩, ⟨"user", "m3", 3⟩,
                     ⟨"assistant", "m4", 4⟩, ⟨"user", "m5", 5⟩, ⟨"assistant", "m6", 6⟩,
                     ⟨"user", "m7", 7⟩] }
      (by decide) (by decide) (by decide)
    rw [h1]
    rfl⟩

/-! ## Claim C8 — graceful LLM failure -/

theorem generate_with_retry_apology (attempts : List (Except String String))
    (h : ∀ a ∈ attempts, failedOrEmpty a = true) :
    generate_with_retry attempts = gemini_apology := by
  induction attempts with
  | nil => rfl
  | cons a rest ih =>
    cases a with
    | error e =>
      rw [generate_with_retry]
      exact ih (fun x hx => h x (List.mem_cons_of_mem _ hx))
    | ok t =>
      have ht : t = "" := by simpa [failedOrEmpty] using h _ (List.mem_cons_self _ _)
      rw [generate_with_retry, if_pos ht]
      exact ih (fun x hx => h x (List.mem_cons_of_mem _ hx))

/-- C8: when every model attempt of the LLM call raises or returns empty
text, `chat` still returns a response whose answer is the fixed, non-empty
apology string, with a non-negative processing time. -/
theorem chat_llm_failure_graceful (convs : List (String × ConversationHistory))
    (query : String) (cid : Option String) (attempts : List (Except String String))
    (startT endT : ℚ) (now : Nat)
    (hfail : ∀ a ∈ attempts, failedOrEmpty a = true) (ht : startT ≤ endT) :
    (engine_chat convs query cid (Except.ok (generate_with_retry attempts))
      startT endT now).1.answer = gemini_apology ∧
    (engine_chat convs query cid (Except.ok (generate_with_retry attempts))
      startT endT now).1.answer ≠ "" ∧
    0 ≤ (engine_chat convs query cid (Except.ok (generate_with_retry attempts))
      startT endT now).1.processing_time := by
  rw [generate_with_retry_apology attempts hfail]
  refine ⟨?_, ?_, ?_⟩
  · simp [engine_chat]
  · simp [engine_chat]
    decide
  · simp [engine_chat]
    linarith

/-- C8 witness: one raising model and one empty-text model still produce the
apology answer. -/
theorem chat_llm_failure_graceful_witness :
    (∀ a ∈ [Except.error "quota exceeded", Except.ok ""], failedOrEmpty a = true) ∧
    (0 : ℚ) ≤ 1 ∧
    (engine_chat [] "q" none
      (Except.ok (generate_with_retry [Except.error "quota exceeded", Except.ok ""]))
      0 1 0).1.answer = gemini_apology :=
  ⟨by decide, by decide,
   (chat_llm_failure_graceful [] "q" none [Except.error "quota exceeded", Except.ok ""]
     0 1 0 (by decide) (by decide)).1⟩

end RagChatbot
